import Mathlib

/-
Formal model of the rankedio TikTok "Comet" discovery ETL pipeline
(src/etl_pipeline.py and src/clean_old_data.py), as a shallow embedding:
dictionaries coming from the TikHub JSON API become structures with
optional fields, the PostgreSQL tables become lists of rows, the SQL
upserts become list transformations, Python floats/Decimals are modelled
by rational numbers, dates by integer day numbers, and external
collaborators (profile fetch, face detection, the OpenAI call and JSON
parsing) by explicit oracle parameters.  Python exceptions raised by a
database write are modelled by an `Except` result driven by an oracle.
-/

set_option maxRecDepth 4000

namespace RankedIO

/-- Single-quote character, used to build the rejection reason strings of the
context filter exactly as the f-strings in the source do. -/
def sq : String := String.singleton (Char.ofNat 39)

/-- Backtick character, used by the markdown stripping step of the AI trend
filter (`content.strip` on backticks). -/
def bq : Char := Char.ofNat 96

/-- Decides whether `needle` occurs as a contiguous run inside `hay`,
modelling the Python `needle in hay` substring test. -/
def containsSub (needle : List Char) : List Char → Bool
  | [] => needle.isEmpty
  | c :: t => (needle.isPrefixOf (c :: t)) || containsSub needle t

/-- Python `needle in hay` on strings. -/
def strContains (hay needle : String) : Bool :=
  containsSub needle.data hay.data

/-- Python `s.lower()` (character-wise). -/
def lowerStr (s : String) : String := String.mk (s.data.map Char.toLower)

/-- Strip leading and trailing whitespace from a character list. -/
def trimList (l : List Char) : List Char :=
  ((l.dropWhile Char.isWhitespace).reverse.dropWhile Char.isWhitespace).reverse

/-- Python `s.strip()`. -/
def trimStr (s : String) : String := String.mk (trimList s.data)

/-- Python `s.startswith(p)`. -/
def strStartsWith (s p : String) : Bool := p.data.isPrefixOf s.data

/-- Drop the first `n` characters of a string (Python slicing `s[n:]`). -/
def strDrop (s : String) (n : ℕ) : String := String.mk (s.data.drop n)

/-- Model of the dynamically typed values a counter field of a TikHub JSON
response can hold: an integer, a string, or an absent / null entry
(`vnone`; the pipeline never distinguishes a missing key from a null
value in the fields modelled here). -/
inductive PyVal where
  | vnone : PyVal
  | vint : ℤ → PyVal
  | vstr : String → PyVal
deriving DecidableEq

/-- Python truthiness of such a value. -/
def truthy : PyVal → Bool
  | .vnone => false
  | .vint n => n != 0
  | .vstr s => s != ""

/-- Python `a or b`. -/
def pyOr (a b : PyVal) : PyVal := if truthy a then a else b

/-- Value of a list of decimal digits. -/
def digitsVal (l : List Char) : ℤ :=
  l.foldl (fun acc c => acc * 10 + ((c.toNat : ℤ) - 48)) 0

/-- Model of Python `int(s)` on a string: surrounding whitespace, an optional
sign and a nonempty run of decimal digits; anything else raises
(modelled by `none`). -/
def parsePyInt (s : String) : Option ℤ :=
  match trimList s.data with
  | [] => none
  | c :: rest =>
      if c = '-' then
        (if rest ≠ [] ∧ rest.all Char.isDigit then some (-(digitsVal rest)) else none)
      else if c = '+' then
        (if rest ≠ [] ∧ rest.all Char.isDigit then some (digitsVal rest) else none)
      else
        (if (c :: rest).all Char.isDigit then some (digitsVal (c :: rest)) else none)

/-- Python `int(v)`: integers unchanged, strings parsed, `None` a type error. -/
def pyToInt : PyVal → Option ℤ
  | .vnone => none
  | .vint n => some n
  | .vstr s => parsePyInt s

/-- Model of `int(raw) if raw else 0` wrapped in `try/except` that defaults
the result to `0` (etl_pipeline.py:912-936). -/
def safeCount (raw : PyVal) : ℤ :=
  if truthy raw then (pyToInt raw).getD 0 else 0

namespace Config

def MIN_FOLLOWERS : ℤ := 10000
def MAX_FOLLOWERS : ℤ := 100000
def MIN_VIDEO_VIEWS : ℤ := 50000
def FETCH_PROFILE_IN_DISCOVERY : Bool := true
def ENABLE_PARALLEL_PROCESSING : Bool := false
def ENABLE_FACE_DETECTION : Bool := false

end Config

/-- The `avatar_thumb` sub-object of an author. -/
structure AvatarThumb where
  url_list : Option (List String) := none
deriving DecidableEq

/-- Author object of the TikHub API (absent or null JSON fields are `none` /
`vnone`). -/
structure Author where
  sec_uid : Option String := none
  uid : Option String := none
  unique_id : Option String := none
  nickname : Option String := none
  signature : Option String := none
  avatar_thumb : Option AvatarThumb := none
  follower_count : PyVal := .vnone
  mplatform_followers_count : PyVal := .vnone
  total_favorited : PyVal := .vnone
  favoriting_count : PyVal := .vnone
  heart_count : PyVal := .vnone
  digg_count : PyVal := .vnone
  favorited_count : PyVal := .vnone
  aweme_count : PyVal := .vnone
  video_count : PyVal := .vnone
deriving DecidableEq

/-- Statistics object of a video item. -/
structure Statistics where
  play_count : PyVal := .vnone
deriving DecidableEq

/-- A cover object (`cover` / `dynamic_cover`). -/
structure CoverObj where
  url_list : Option (List String) := none
deriving DecidableEq

/-- The `video` sub-object of a video item; `none` for an optional field or
for the whole object models a falsy (missing or empty) dictionary. -/
structure VideoObj where
  cover : Option CoverObj := none
  dynamic_cover : Option CoverObj := none
deriving DecidableEq

/-- The `aweme_info` object of a search result item. -/
structure AwemeInfo where
  author : Option Author := none
  statistics : Option Statistics := none
  video : Option VideoObj := none
  desc : Option String := none
  aweme_id : Option String := none
deriving DecidableEq

/-- One raw item of `search_item_list`. -/
structure Item where
  aweme_info : Option AwemeInfo := none
  item_id : Option String := none
  aweme_id : Option String := none
deriving DecidableEq

/-- A row of the `creators` table. -/
structure CreatorRow where
  user_id : String
  handle : String
  nickname : String
  avatar_url : String
  signature : String
  last_updated_at : ℤ
  discovered_via_trend : Option String
  breakout_video_id : Option String
deriving DecidableEq

/-- A row of `creator_stats`, also used as the stats dictionary handed to
`insert_creator_stats` (the dictionary keys coincide with the columns). -/
structure StatsData where
  user_id : String
  recorded_date : ℤ
  follower_count : ℤ
  heart_count : ℤ
  video_count : ℤ
  daily_growth_followers : ℤ
  daily_growth_percent : ℚ
  source_trend : Option String
deriving DecidableEq

/-- A row of `daily_trends`. -/
structure TrendRow where
  trend_keyword : String
  discovered_at : ℤ
  rank : ℤ
deriving DecidableEq

/-- The relational store: the three tables as lists of rows. -/
structure DB where
  creators : List CreatorRow := []
  stats : List StatsData := []
  trends : List TrendRow := []
deriving DecidableEq

/-- The creator dictionary produced by `extract_creator_data`. -/
structure CreatorData where
  user_id : String
  handle : String
  nickname : String
  avatar_url : String
  signature : String
  last_updated_at : ℤ
deriving DecidableEq

/-- Row of `creators` with the given primary key (first match). -/
def findCreator (db : DB) (uid : String) : Option CreatorRow :=
  db.creators.find? (fun r => r.user_id == uid)

/-- Row of `creator_stats` with the given (user, date) key (first match). -/
def findStats (db : DB) (uid : String) (d : ℤ) : Option StatsData :=
  db.stats.find? (fun r => r.user_id == uid && r.recorded_date == d)

/-- The DO UPDATE clause of `upsert_creator` (etl_pipeline.py:137-143):
identity fields are overwritten, the two provenance columns are kept. -/
def creatorUpdate (cd : CreatorData) (r : CreatorRow) : CreatorRow :=
  { r with handle := cd.handle, nickname := cd.nickname, avatar_url := cd.avatar_url,
           signature := cd.signature, last_updated_at := cd.last_updated_at }

/-- `DatabaseManager.upsert_creator` (etl_pipeline.py:118-145): INSERT .. ON
CONFLICT (user_id) DO UPDATE of identity fields only. -/
def upsert_creator (db : DB) (cd : CreatorData)
    (trend_keyword breakout_video_id : Option String) : DB :=
  if db.creators.any (fun r => r.user_id == cd.user_id) then
    let updated := db.creators.map
      (fun r => if r.user_id == cd.user_id then creatorUpdate cd r else r)
    { db with creators := updated }
  else
    { db with creators := db.creators ++
        [{ user_id := cd.user_id, handle := cd.handle, nickname := cd.nickname,
           avatar_url := cd.avatar_url, signature := cd.signature,
           last_updated_at := cd.last_updated_at,
           discovered_via_trend := trend_keyword,
           breakout_video_id := breakout_video_id }] }

/-- SQL COALESCE on two nullable strings. -/
def coalesce (a b : Option String) : Option String :=
  match a with
  | some x => some x
  | none => b

/-- The scalar subquery `SELECT discovered_via_trend FROM creators WHERE
user_id = ...` of `insert_creator_stats`: `none` both when the creator
row is missing and when its column is null. -/
def creatorTrend (db : DB) (uid : String) : Option String :=
  (findCreator db uid).bind (fun r => r.discovered_via_trend)

/-- The DO UPDATE clause of `insert_creator_stats` (etl_pipeline.py:206-214):
counts and growth fields come from EXCLUDED, and the stored source trend is
`COALESCE(EXCLUDED.source_trend, creator_stats.source_trend)` where the
EXCLUDED value is the already-resolved insert value `resolved`. -/
def statsUpdate (s : StatsData) (resolved : Option String) (r : StatsData) : StatsData :=
  { r with follower_count := s.follower_count, heart_count := s.heart_count,
           video_count := s.video_count,
           daily_growth_followers := s.daily_growth_followers,
           daily_growth_percent := s.daily_growth_percent,
           source_trend := coalesce resolved r.source_trend }

/-- `DatabaseManager.insert_creator_stats` (etl_pipeline.py:173-216).  The
inserted `source_trend` value is `COALESCE(incoming, discovered_via_trend)`,
and on conflict the stored trend is the COALESCE of that resolved value with
the previously stored one. -/
def insert_creator_stats (db : DB) (s : StatsData) : DB :=
  let resolved := coalesce s.source_trend (creatorTrend db s.user_id)
  if db.stats.any (fun r => r.user_id == s.user_id && r.recorded_date == s.recorded_date) then
    let updated := db.stats.map
      (fun r => if r.user_id == s.user_id && r.recorded_date == s.recorded_date
                then statsUpdate s resolved r else r)
    { db with stats := updated }
  else
    { db with stats := db.stats ++ [{ s with source_trend := resolved }] }

/-- `src/clean_old_data.py` (lines 13-29): delete all stats rows dated before
`today`, delete all trends dated before `today`, then delete every creator
with no remaining stats row; returns the three row counts in that order. -/
def clean_old_data (db : DB) (today : ℤ) : DB × ℕ × ℕ × ℕ :=
  let statsKept := db.stats.filter (fun r => !decide (r.recorded_date < today))
  let old_stats_deleted := db.stats.length - statsKept.length
  let trendsKept := db.trends.filter (fun t => !decide (t.discovered_at < today))
  let old_trends_deleted := db.trends.length - trendsKept.length
  let creatorsKept := db.creators.filter (fun c => statsKept.any (fun r => r.user_id == c.user_id))
  let orphaned_creators_deleted := db.creators.length - creatorsKept.length
  ({ creators := creatorsKept, stats := statsKept, trends := trendsKept },
   old_stats_deleted, old_trends_deleted, orphaned_creators_deleted)

/-- Python `int(q)` on a rational: truncation toward zero. -/
def pyIntTrunc (q : ℚ) : ℤ := if 0 ≤ q then ⌊q⌋ else -⌊-q⌋

/-- Round a rational to the nearest integer, ties to even (the default
rounding of `Decimal.quantize`). -/
def roundHalfEven (x : ℚ) : ℤ :=
  let f := ⌊x⌋
  let r := x - (f : ℚ)
  if r < 1/2 then f
  else if 1/2 < r then f + 1
  else if f % 2 = 0 then f else f + 1

/-- Model of `Decimal(v).quantize(Decimal(0.01))`: the value rounded to two
decimal places, ties to even.  The Python code routes the value through a
binary float first; the model works with exact rationals. -/
def quantize2 (x : ℚ) : ℚ := ((roundHalfEven (x * 100) : ℤ) : ℚ) / 100

/-- The later of two stats rows by recorded date (left-biased on ties). -/
def laterStats (a b : StatsData) : StatsData :=
  if a.recorded_date < b.recorded_date then b else a

/-- `DatabaseManager.get_previous_stats` (etl_pipeline.py:147-171): the most
recent stats row of the creator strictly before `target`. -/
def get_previous_stats (db : DB) (uid : String) (target : ℤ) : Option StatsData :=
  (db.stats.filter (fun r => r.user_id == uid && decide (r.recorded_date < target))).foldl
    (fun acc r =>
      match acc with
      | none => some r
      | some b => some (laterStats b r)) none

/-- Day-averaged follower growth as computed at etl_pipeline.py:946-954:
`days_diff` is the day gap, patched to 1 when it is zero, and the delta is
divided by it only when it is positive. -/
def avgDailyGrowth (daily_growth previous_date today : ℤ) : ℚ :=
  let days_diff0 : ℤ := today - previous_date
  let days_diff : ℤ := if days_diff0 = 0 then 1 else days_diff0
  if 0 < days_diff then (daily_growth : ℚ) / (days_diff : ℚ) else (daily_growth : ℚ)

/-- Current follower count extraction (etl_pipeline.py:912-916). -/
def currentFollowerCount (a : Author) : ℤ :=
  safeCount (pyOr (pyOr a.follower_count a.mplatform_followers_count) (.vint 0))

/-- Current heart count extraction (etl_pipeline.py:918-930). -/
def currentHeartCount (a : Author) : ℤ :=
  safeCount (pyOr (pyOr (pyOr (pyOr (pyOr a.total_favorited a.favoriting_count)
    a.heart_count) a.digg_count) a.favorited_count) (.vint 0))

/-- Current video count extraction (etl_pipeline.py:932-936). -/
def currentVideoCount (a : Author) : ℤ :=
  safeCount (pyOr (pyOr a.aweme_count a.video_count) (.vint 0))

/-- `CometDiscoveryEngine.extract_stats_data` (etl_pipeline.py:898-977):
counter extraction with zero defaults, lookup of the most recent prior
snapshot, and the growth computation. -/
def extract_stats_data (today : ℤ) (user_id : String) (a : Author) (db : DB)
    (source_trend : Option String) : StatsData :=
  let cf := currentFollowerCount a
  let ch := currentHeartCount a
  let cv := currentVideoCount a
  match get_previous_stats db user_id today with
  | some prev =>
      let daily_growth : ℤ := cf - prev.follower_count
      let avg := avgDailyGrowth daily_growth prev.recorded_date today
      let growth_percent : ℚ :=
        if 0 < prev.follower_count then quantize2 (avg / (prev.follower_count : ℚ) * 100) else 0
      { user_id := user_id, recorded_date := today, follower_count := cf, heart_count := ch,
        video_count := cv, daily_growth_followers := pyIntTrunc avg,
        daily_growth_percent := growth_percent, source_trend := source_trend }
  | none =>
      { user_id := user_id, recorded_date := today, follower_count := cf, heart_count := ch,
        video_count := cv, daily_growth_followers := 0, daily_growth_percent := 0,
        source_trend := source_trend }

/-- The fixed platform keyword list of `ContextFirstFilter`. -/
def PLATFORM_KEYWORDS : List String :=
  ["twitch", "youtube", "kick", "discord", "streaming", "streamer",
   "ttv", "yt", "patreon", "onlyfans", "twitter", "instagram",
   "fanpage", "fan page", "archive", "clips", "highlights", "moments",
   "daily", "compilation", "best of"]

/-- The fixed repost pronoun list of `ContextFirstFilter`. -/
def REPOST_PRONOUNS : List String := ["bro", "he", "she", "they"]

/-- The lower-cased concatenation `f"{nickname} {unique_id} {signature}"`. -/
def combinedText (a : Author) : String :=
  lowerStr (a.nickname.getD "") ++ " " ++ lowerStr (a.unique_id.getD "") ++ " " ++
    lowerStr (a.signature.getD "")

/-- The Layer-1 rejection reason f-string. -/
def layer1Reason (kw : String) : String :=
  "Multi-platform keyword " ++ sq ++ kw ++ sq ++ " found (not TikTok-native)"

/-- The Layer-2 rejection reason f-string. -/
def layer2Reason (p : String) : String :=
  "Repost pattern detected: starts with " ++ sq ++ p ++ sq

/-- `ContextFirstFilter.layer1_platform_check` (etl_pipeline.py:636-658). -/
def layer1_platform_check (author : Author) : Bool × String :=
  match PLATFORM_KEYWORDS.find? (fun kw => strContains (combinedText author) kw) with
  | some kw => (false, layer1Reason kw)
  | none => (true, "Platform check passed (TikTok-native)")

/-- `ContextFirstFilter.layer2_pronoun_check` (etl_pipeline.py:660-683). -/
def layer2_pronoun_check (caption : String) : Bool × String :=
  if caption = "" then (true, "No caption (allowed)")
  else
    match REPOST_PRONOUNS.find? (fun p => strStartsWith (lowerStr (trimStr caption)) (p ++ " ")) with
    | some p => (false, layer2Reason p)
    | none => (true, "Pronoun check passed")

/-- `ContextFirstFilter.layer3_face_presence` (etl_pipeline.py:685-801): with
face detection disabled in the config the layer passes immediately; the
image-download-and-detect branch is an external oracle. -/
def layer3_face_presence (face : String → Bool × String) (cover_url : String) : Bool × String :=
  if Config.ENABLE_FACE_DETECTION then face cover_url
  else (true, "Face detection disabled in config")

/-- `ContextFirstFilter.filter_creator` (etl_pipeline.py:803-830): the three
layers in order, short-circuiting at the first failure. -/
def filter_creator (face : String → Bool × String) (author : Author) (caption : String)
    (cover_url : String) : Bool × String :=
  match layer1_platform_check author with
  | (false, reason1) => (false, "❌ Layer 1: " ++ reason1)
  | (true, _) =>
      match layer2_pronoun_check caption with
      | (false, reason2) => (false, "❌ Layer 2: " ++ reason2)
      | (true, _) =>
          match layer3_face_presence face cover_url with
          | (false, reason3) => (false, "❌ Layer 3: " ++ reason3)
          | (true, _) => (true, "✅ All filters passed")

/-- `CometDiscoveryEngine.is_comet_creator` (etl_pipeline.py:853-877);
`int()` conversion failures make the predicate false. -/
def getCount (v : PyVal) : Option ℤ :=
  match v with
  | .vnone => some 0
  | .vint n => some n
  | .vstr s => parsePyInt s

/-- Comet eligibility: follower count strictly between the configured bounds
and play count above the view floor. -/
def is_comet_creator (author : Author) (video_stats : Statistics) : Bool :=
  match getCount author.follower_count, getCount video_stats.play_count with
  | some f, some p =>
      decide (Config.MIN_FOLLOWERS < f) && decide (f < Config.MAX_FOLLOWERS) &&
        decide (Config.MIN_VIDEO_VIEWS < p)
  | _, _ => false

/-- `CometDiscoveryEngine.extract_creator_data` (etl_pipeline.py:879-896);
`none` models the IndexError raised when a truthy `avatar_thumb` carries an
empty `url_list` (swallowed by the caller's outer except). -/
def extract_creator_data (now : ℤ) (a : Author) : Option CreatorData :=
  let user_id :=
    match a.sec_uid with
    | some s => if s = "" then a.uid.getD "" else s
    | none => a.uid.getD ""
  let avatar :=
    match a.avatar_thumb with
    | none => some ""
    | some t =>
        match t.url_list.getD [""] with
        | [] => none
        | u :: _ => some u
  avatar.map (fun av =>
    { user_id := user_id, handle := a.unique_id.getD "", nickname := a.nickname.getD "",
      avatar_url := av, signature := a.signature.getD "", last_updated_at := now })

/-- Python `a or b` on optional strings (empty string is falsy). -/
def pyOrStr (a b : Option String) : Option String :=
  match a with
  | some s => if s = "" then b else some s
  | none => b

/-- Breakout video id extraction (etl_pipeline.py:1005-1006). -/
def videoIdOf (item : Item) (ai : AwemeInfo) : String :=
  match pyOrStr (pyOrStr ai.aweme_id item.item_id) item.aweme_id with
  | some s => s
  | none => ""

/-- First entry of a cover url list, empty when the object is falsy or the
list is missing or empty (etl_pipeline.py:1016-1030). -/
def coverFirst (c : Option CoverObj) : String :=
  match c with
  | none => ""
  | some cov =>
      match cov.url_list.getD [] with
      | [] => ""
      | u :: _ => u

/-- Cover URL of a video item: the `cover` field, falling back to
`dynamic_cover` when it yields nothing. -/
def coverUrlOf (ai : AwemeInfo) : String :=
  match ai.video with
  | none => ""
  | some v =>
      let c1 := coverFirst v.cover
      if c1 = "" then coverFirst v.dynamic_cover else c1

/-- The username blacklist of `process_video_item` (etl_pipeline.py:1071). -/
def usernameBlacklist : List String := ["video", "videos", "clip", "clips", "rate", "rating"]

/-- The run-scoped filter statistics counters of `CometDiscoveryEngine`. -/
structure FilterStats where
  total_processed : ℕ := 0
  rejected_layer1 : ℕ := 0
  rejected_layer2 : ℕ := 0
  rejected_layer3 : ℕ := 0
  passed_filters : ℕ := 0
  rejected_comet_criteria : ℕ := 0
  saved_to_db : ℕ := 0
deriving DecidableEq

/-- Engine state threaded through item processing: counters, the run-scoped
set of already discovered creator ids, and the database. -/
structure PState where
  counters : FilterStats := {}
  discovered : List String := []
  db : DB := {}
deriving DecidableEq

/-- Data computed before the savepoint that the persistence step needs. -/
structure Payload where
  creator_data : CreatorData
  author : Author
  video_id : String
deriving DecidableEq

/-- External collaborators and failure oracles: wall clock, profile fetch,
the face-detection branch, and per-write database error injection (a write
raises exactly when its oracle says so, modelling constraint violations). -/
structure Env where
  today : ℤ
  now : ℤ
  fetchProfile : String → Option Author
  face : String → Bool × String
  creatorWriteFails : DB → CreatorData → Option String → Option String → Bool
  statsWriteFails : DB → StatsData → Bool

/-- Counter attribution of a filter rejection (etl_pipeline.py:1042-1049):
which layer rejected is recovered from the reason string. -/
def bumpLayerCounter (reason : String) (c : FilterStats) : FilterStats :=
  if strContains reason "Layer 1" then { c with rejected_layer1 := c.rejected_layer1 + 1 }
  else if strContains reason "Layer 2" then { c with rejected_layer2 := c.rejected_layer2 + 1 }
  else if strContains reason "Layer 3" then { c with rejected_layer3 := c.rejected_layer3 + 1 }
  else c

/-- The part of `CometDiscoveryEngine.process_video_item` that runs before
`SAVEPOINT before_insert` (etl_pipeline.py:991-1083): defensive extraction,
the no-cover rejection, the context filter, the comet check, creator data
extraction, the username blacklist and the run-scoped dedup check.  Returns
the payload for the persistence step (`none` on any early `return False`)
together with the updated counters; it touches neither the database nor the
discovered set. -/
def preSavepoint (now : ℤ) (face : String → Bool × String) (item : Item)
    (c0 : FilterStats) (discovered : List String) : Option Payload × FilterStats :=
  let c := { c0 with total_processed := c0.total_processed + 1 }
  match item.aweme_info with
  | none => (none, c)
  | some ai =>
      match ai.author, ai.statistics with
      | some author, some statistics =>
          let video_id := videoIdOf item ai
          let caption := ai.desc.getD ""
          let cover_url := coverUrlOf ai
          if cover_url = "" then (none, { c with rejected_layer3 := c.rejected_layer3 + 1 })
          else
            match filter_creator face author caption cover_url with
            | (false, reason) => (none, bumpLayerCounter reason c)
            | (true, _) =>
                let c1 := { c with passed_filters := c.passed_filters + 1 }
                if is_comet_creator author statistics then
                  match extract_creator_data now author with
                  | none => (none, c1)
                  | some cd =>
                      if cd.user_id = "" then (none, c1)
                      else if usernameBlacklist.any (fun kw => strContains (lowerStr cd.handle) kw) then
                        (none, { c1 with rejected_layer1 := c1.rejected_layer1 + 1 })
                      else if discovered.contains cd.user_id then (none, c1)
                      else (some { creator_data := cd, author := author, video_id := video_id }, c1)
                else (none, { c1 with rejected_comet_criteria := c1.rejected_comet_criteria + 1 })
      | _, _ => (none, c)

/-- The persistence section of `process_video_item` guarded by the savepoint
(etl_pipeline.py:1083-1115): upsert the creator, optionally replace the
author by the fetched full profile, compute and insert the stats row.  A
write raises (`Except.error`) when its oracle fires. -/
def persistItem (env : Env) (source_trend : Option String) (pay : Payload) (db : DB) :
    Except Unit DB :=
  if env.creatorWriteFails db pay.creator_data source_trend (some pay.video_id) then
    Except.error ()
  else
    let db1 := upsert_creator db pay.creator_data source_trend (some pay.video_id)
    let author1 :=
      if Config.FETCH_PROFILE_IN_DISCOVERY then
        (env.fetchProfile pay.creator_data.handle).getD pay.author
      else pay.author
    let stats_data := extract_stats_data env.today pay.creator_data.user_id author1 db1 source_trend
    if env.statsWriteFails db1 stats_data then Except.error ()
    else Except.ok (insert_creator_stats db1 stats_data)

/-- `CometDiscoveryEngine.process_video_item` (etl_pipeline.py:979-1137): the
pre-savepoint phase followed by the guarded persistence; a database error
rolls back to the savepoint (the database and discovered set revert to the
state before the item's first write) and the item reports `False`. -/
def processVideoItem (env : Env) (source_trend : Option String) (item : Item) (st : PState) :
    Bool × PState :=
  match preSavepoint env.now env.face item st.counters st.discovered with
  | (none, c) => (false, { st with counters := c })
  | (some pay, c) =>
      match persistItem env source_trend pay st.db with
      | Except.error _ => (false, { st with counters := c })
      | Except.ok db2 =>
          (true, { counters := { c with saved_to_db := c.saved_to_db + 1 },
                   discovered := pay.creator_data.user_id :: st.discovered, db := db2 })

/-- The item loop of `CometDiscoveryEngine.process_trend`
(etl_pipeline.py:1272-1274): every item of the page is processed in order and
the discovered count is incremented on `True` results. -/
def processItems (env : Env) (source_trend : Option String) :
    List Item → PState → ℕ → ℕ × PState
  | [], st, n => (n, st)
  | i :: rest, st, n =>
      match processVideoItem env source_trend i st with
      | (true, st2) => processItems env source_trend rest st2 (n + 1)
      | (false, st2) => processItems env source_trend rest st2 n

/-- JSON values as far as the AI trend filter inspects them: an array of
strings or anything else. -/
inductive JsonVal where
  | arr : List String → JsonVal
  | other : JsonVal
deriving DecidableEq

/-- The external JSON parser (`json.loads`): `none` models a decode error. -/
structure AiEnv where
  parseJson : String → Option JsonVal

/-- Strip all leading and trailing occurrences of a character (Python
`str.strip` with an argument). -/
def stripEdges (c : Char) (s : String) : String :=
  String.mk (((s.data.dropWhile (fun x => x = c)).reverse.dropWhile (fun x => x = c)).reverse)

/-- The markdown code-block stripping of `filter_trends_with_ai`
(etl_pipeline.py:549-557). -/
def stripMd (raw : String) : String :=
  let content := trimStr raw
  if strStartsWith content "```" then
    let c := stripEdges bq content
    if strStartsWith c "json" then trimStr (strDrop c 4) else c
  else content

/-- `filter_trends_with_ai` (etl_pipeline.py:480-589): empty input short
circuits to `[]`; otherwise the provider call either raises (`Except.error`,
covering client errors and any other exception) or returns text that is
stripped and parsed; a decode failure or a non-list parse falls back to the
unfiltered input list. -/
def filter_trends_with_ai (env : AiEnv) (trend_list : List String)
    (call : Except Unit String) : List String :=
  if trend_list.isEmpty then []
  else
    match call with
    | Except.error _ => trend_list
    | Except.ok content =>
        match env.parseJson (stripMd content) with
        | none => trend_list
        | some (JsonVal.arr filtered) => filtered
        | some JsonVal.other => trend_list

/-- The row inserted by `upsert_creator` when there is no conflict. -/
def newCreatorRow (cd : CreatorData) (trend_keyword breakout_video_id : Option String) :
    CreatorRow :=
  { user_id := cd.user_id, handle := cd.handle, nickname := cd.nickname,
    avatar_url := cd.avatar_url, signature := cd.signature,
    last_updated_at := cd.last_updated_at,
    discovered_via_trend := trend_keyword, breakout_video_id := breakout_video_id }

/- Concrete test fixtures used by the witness and counterexample theorems. -/

def c1Creator : CreatorRow :=
  { user_id := "u", handle := "h", nickname := "n", avatar_url := "", signature := "",
    last_updated_at := 0, discovered_via_trend := some "A", breakout_video_id := none }

def c1Row : StatsData :=
  { user_id := "u", recorded_date := 5, follower_count := 10, heart_count := 1,
    video_count := 1, daily_growth_followers := 0, daily_growth_percent := 0,
    source_trend := some "B" }

def c1Db : DB := { creators := [c1Creator], stats := [c1Row], trends := [] }

def c1Incoming : StatsData :=
  { user_id := "u", recorded_date := 5, follower_count := 20, heart_count := 2,
    video_count := 2, daily_growth_followers := 10, daily_growth_percent := 1,
    source_trend := none }

def c1IncomingC : StatsData := { c1Incoming with source_trend := some "C" }

def c2Prev : StatsData :=
  { user_id := "u", recorded_date := 7, follower_count := 1000, heart_count := 0,
    video_count := 0, daily_growth_followers := 0, daily_growth_percent := 0,
    source_trend := none }

def c2Db : DB := { creators := [], stats := [c2Prev], trends := [] }

def c2Author : Author := { follower_count := .vint 1300 }

def c3Author : Author :=
  { sec_uid := some "u1", unique_id := some "alice", nickname := some "Alice",
    signature := some "hi there", follower_count := .vint 20000,
    total_favorited := .vint 500, aweme_count := .vint 30 }

def c3Item : Item :=
  { aweme_info := some
      { author := some c3Author, statistics := some { play_count := .vint 60000 },
        video := some { cover := some { url_list := some ["http://img"] }, dynamic_cover := none },
        desc := none, aweme_id := some "v1" },
    item_id := none, aweme_id := none }

def c3Env : Env :=
  { today := 10, now := 0, fetchProfile := fun _ => none, face := fun _ => (true, "ok"),
    creatorWriteFails := fun _ _ _ _ => true, statsWriteFails := fun _ _ => false }

def c3Pay : Payload :=
  { creator_data := { user_id := "u1", handle := "alice", nickname := "Alice",
                      avatar_url := "", signature := "hi there", last_updated_at := 0 },
    author := c3Author, video_id := "v1" }

def c3Cnt : FilterStats := { total_processed := 1, passed_filters := 1 }

def c4First : CreatorData :=
  { user_id := "u1", handle := "h1", nickname := "n1", avatar_url := "a1", signature := "s1",
    last_updated_at := 1 }

def c4Second : CreatorData :=
  { user_id := "u1", handle := "h2", nickname := "n2", avatar_url := "a2", signature := "s2",
    last_updated_at := 2 }

def c5CreatorA : CreatorRow :=
  { user_id := "A", handle := "a", nickname := "a", avatar_url := "", signature := "",
    last_updated_at := 0, discovered_via_trend := none, breakout_video_id := none }

def c5CreatorB : CreatorRow :=
  { user_id := "B", handle := "b", nickname := "b", avatar_url := "", signature := "",
    last_updated_at := 0, discovered_via_trend := none, breakout_video_id := none }

def c5Stat (uid : String) (d : ℤ) : StatsData :=
  { user_id := uid, recorded_date := d, follower_count := 1, heart_count := 0,
    video_count := 0, daily_growth_followers := 0, daily_growth_percent := 0,
    source_trend := none }

def c5Db : DB :=
  { creators := [c5CreatorA], stats := [c5Stat "A" 4, c5Stat "A" 5], trends := [] }

def c5WDb : DB :=
  { creators := [c5CreatorA, c5CreatorB], stats := [c5Stat "A" 5, c5Stat "B" 2], trends := [] }

def c7Env : AiEnv := { parseJson := fun _ => none }

def c8Face : String → Bool × String := fun _ => (false, "no face")

def c8TwitchAuthor : Author :=
  { nickname := some "Alice", unique_id := some "alice123",
    signature := some "my twitch is twitch.tv/alice" }

def c8CleanAuthor : Author :=
  { nickname := some "Bea", unique_id := some "bea", signature := some "hello" }

def c9Author : Author :=
  { follower_count := .vstr "abc", mplatform_followers_count := .vnone,
    total_favorited := .vstr "", favoriting_count := .vstr "12x",
    heart_count := .vnone, digg_count := .vstr "n/a", favorited_count := .vnone,
    aweme_count := .vstr "??", video_count := .vnone }

def c9Prev : StatsData :=
  { user_id := "u", recorded_date := 3, follower_count := 0, heart_count := 0,
    video_count := 0, daily_growth_followers := 0, daily_growth_percent := 0,
    source_trend := none }

def c9Db : DB := { creators := [], stats := [c9Prev], trends := [] }

def c10Author : Author :=
  { sec_uid := some "u2", unique_id := some "carol", nickname := some "Carol",
    signature := some "hey", follower_count := .vint 30000 }

def c10Ai : AwemeInfo :=
  { author := some c10Author, statistics := some { play_count := .vint 70000 },
    video := none, desc := some "nice", aweme_id := some "v9" }

def c10Item : Item := { aweme_info := some c10Ai, item_id := none, aweme_id := none }

def c10Face : String → Bool × String := fun _ => (false, "would reject")

def c10Env : Env :=
  { today := 10, now := 0, fetchProfile := fun _ => none, face := fun _ => (true, "ok"),
    creatorWriteFails := fun _ _ _ _ => false, statsWriteFails := fun _ _ => false }

/-- A counter field value that the extraction must coerce to zero: a missing
or null entry, an empty string, or a string that `int()` cannot parse. -/
def zeroishVal (v : PyVal) : Prop :=
  v = PyVal.vnone ∨ v = PyVal.vstr "" ∨ ∃ s, v = PyVal.vstr s ∧ parsePyInt s = none

/- Helper lemmas shared by the claim theorems. -/

theorem find?_map_update {α : Type} (p : α → Bool) (f : α → α)
    (hf : ∀ a, p a = true → p (f a) = true) (l : List α) :
    List.find? p (l.map (fun a => if p a then f a else a)) = (List.find? p l).map f := by
  induction l with
  | nil => rfl
  | cons a t ih =>
      by_cases h : p a = true
      · rw [List.map_cons, if_pos h, List.find?_cons_of_pos _ (hf a h),
          List.find?_cons_of_pos _ h]
        rfl
      · have h' : ¬ (p a = true) := h
        rw [List.map_cons, if_neg h', List.find?_cons_of_neg _ h', List.find?_cons_of_neg _ h']
        exact ih

theorem find?_append_left_none {α : Type} (p : α → Bool) (l₂ : List α) (l₁ : List α)
    (h : List.find? p l₁ = none) : List.find? p (l₁ ++ l₂) = List.find? p l₂ := by
  induction l₁ with
  | nil => rfl
  | cons a t ih =>
      rw [List.find?_cons] at h
      rcases hpa : p a with _ | _
      · rw [List.cons_append, List.find?_cons_of_neg _ (by simp [hpa])]
        exact ih (by rwa [hpa] at h)
      · rw [hpa] at h
        exact absurd h (by simp)

theorem any_eq_false_of_find?_none {α : Type} (p : α → Bool) (l : List α)
    (h : List.find? p l = none) : l.any p = false := by
  rw [List.any_eq_false]
  intro a ha
  have := List.find?_eq_none.mp h a ha
  simpa using this

theorem any_eq_true_of_find?_some {α : Type} (p : α → Bool) (l : List α) (a : α)
    (h : List.find? p l = some a) : l.any p = true := by
  rw [List.any_eq_true]
  exact ⟨a, List.mem_of_find?_eq_some h, List.find?_some h⟩

theorem upsert_creator_fresh (db : DB) (cd : CreatorData) (t b : Option String)
    (h : findCreator db cd.user_id = none) :
    upsert_creator db cd t b = { db with creators := db.creators ++ [newCreatorRow cd t b] } := by
  have hany := any_eq_false_of_find?_none _ _ h
  unfold upsert_creator
  rw [if_neg (by simp [hany])]
  rfl

theorem upsert_creator_conflict (db : DB) (cd : CreatorData) (t b : Option String)
    (r : CreatorRow) (h : findCreator db cd.user_id = some r) :
    findCreator (upsert_creator db cd t b) cd.user_id = some (creatorUpdate cd r) := by
  have hany := any_eq_true_of_find?_some _ _ _ h
  unfold upsert_creator
  rw [if_pos (by simp [hany])]
  unfold findCreator at h ⊢
  rw [find?_map_update (fun x => x.user_id == cd.user_id) (creatorUpdate cd)
    (fun a ha => ha) db.creators, h]
  rfl

/-- Claim C4: a second `upsert_creator` for an existing creator id overwrites
the identity fields (handle, nickname, avatar, signature, last-updated) but
leaves `discovered_via_trend` and `breakout_video_id` at the values stored by
the first insert, whatever provenance the second call carries. -/
theorem upsert_creator_provenance_write_once
    (db : DB) (cd1 cd2 : CreatorData) (t1 b1 t2 b2 : Option String)
    (hfresh : findCreator db cd1.user_id = none)
    (hid : cd2.user_id = cd1.user_id) :
    findCreator (upsert_creator (upsert_creator db cd1 t1 b1) cd2 t2 b2) cd1.user_id =
      some { user_id := cd1.user_id, handle := cd2.handle, nickname := cd2.nickname,
             avatar_url := cd2.avatar_url, signature := cd2.signature,
             last_updated_at := cd2.last_updated_at,
             discovered_via_trend := t1, breakout_video_id := b1 } := by
  have h1 := upsert_creator_fresh db cd1 t1 b1 hfresh
  have hfind : findCreator (upsert_creator db cd1 t1 b1) cd1.user_id =
      some (newCreatorRow cd1 t1 b1) := by
    rw [h1]
    unfold findCreator
    have := find?_append_left_none (fun (x : CreatorRow) => x.user_id == cd1.user_id)
      [newCreatorRow cd1 t1 b1] db.creators hfresh
    rw [this]
    simp [newCreatorRow, List.find?_cons_of_pos]
  have h2 := upsert_creator_conflict (upsert_creator db cd1 t1 b1) cd2 t2 b2
    (newCreatorRow cd1 t1 b1) (by rw [hid]; exact hfind)
  rw [hid] at h2
  rw [h2]
  rfl

/-- Claim C4 witness: inserting creator u1 discovered via trend A and video
v1 and then upserting it with trend B and video v2 keeps provenance (A, v1)
while the identity fields take the second call's values. -/
theorem upsert_creator_provenance_write_once_witness :
    findCreator (upsert_creator (upsert_creator {} c4First (some "A") (some "v1"))
        c4Second (some "B") (some "v2")) "u1" =
      some { user_id := "u1", handle := "h2", nickname := "n2", avatar_url := "a2",
             signature := "s2", last_updated_at := 2,
             discovered_via_trend := some "A", breakout_video_id := some "v1" } := by
  have h := upsert_creator_provenance_write_once {} c4First c4Second
    (some "A") (some "v1") (some "B") (some "v2") rfl rfl
  exact h

/-- Claim C1 counterexample: creator u was discovered via trend A; its
snapshot for day 5 carries the explicitly attributed source trend B.
Re-upserting that snapshot with a null incoming source trend does not
preserve the stored non-null trend B: the stored value becomes A, because
the EXCLUDED insert value is already resolved to the creator's
`discovered_via_trend` before the conflict COALESCE runs. -/
theorem insert_creator_stats_null_trend_not_preserved :
    c1Incoming.source_trend = none ∧
    (findStats c1Db "u" 5).map (fun r => r.source_trend) = some (some "B") ∧
    (findStats (insert_creator_stats c1Db c1Incoming) "u" 5).map (fun r => r.source_trend) =
      some (some "A") ∧
    (some "A" : Option String) ≠ some "B" := by
  refine ⟨rfl, rfl, rfl, by decide⟩

/-- Claim C1 (amended): re-upserting a snapshot for an existing
(creator, date) row overwrites the counts and both growth fields, and the
stored source trend becomes COALESCE(incoming trend, creator's
discovered_via_trend, previously stored trend); in particular a null
incoming trend preserves the stored trend only when the creator's
discovered_via_trend is null (or equal to it), not unconditionally. -/
theorem insert_creator_stats_upsert_semantics (db : DB) (s : StatsData) (r : StatsData)
    (h : findStats db s.user_id s.recorded_date = some r) :
    findStats (insert_creator_stats db s) s.user_id s.recorded_date =
      some { user_id := r.user_id, recorded_date := r.recorded_date,
             follower_count := s.follower_count, heart_count := s.heart_count,
             video_count := s.video_count,
             daily_growth_followers := s.daily_growth_followers,
             daily_growth_percent := s.daily_growth_percent,
             source_trend := coalesce (coalesce s.source_trend (creatorTrend db s.user_id)) r.source_trend } := by
  have hany := any_eq_true_of_find?_some _ _ _ h
  unfold insert_creator_stats
  rw [if_pos (by simp [hany])]
  unfold findStats at h ⊢
  rw [find?_map_update (fun x => x.user_id == s.user_id && x.recorded_date == s.recorded_date)
    (statsUpdate s (coalesce s.source_trend (creatorTrend db s.user_id)))
    (fun a ha => ha) db.stats, h]
  rfl

/-- Claim C1 amended-theorem witness: on the counterexample database, an
incoming snapshot with explicit trend C overwrites counts and growth and
stores C, exactly as the amended conflict semantics predicts. -/
theorem insert_creator_stats_upsert_semantics_witness :
    findStats (insert_creator_stats c1Db c1IncomingC) "u" 5 =
      some { user_id := "u", recorded_date := 5, follower_count := 20, heart_count := 2,
             video_count := 2, daily_growth_followers := 10, daily_growth_percent := 1,
             source_trend := some "C" } := by
  have h := insert_creator_stats_upsert_semantics c1Db c1IncomingC c1Row rfl
  rw [show findStats (insert_creator_stats c1Db c1IncomingC) "u" 5 =
    findStats (insert_creator_stats c1Db c1IncomingC) c1IncomingC.user_id
      c1IncomingC.recorded_date from rfl, h]
  rfl

/-- Claim C5 counterexample: under cutoff day 5, creator A (snapshots on
days 4 and 5) is retained, yet its day-4 snapshot is deleted — the script
removes ALL snapshots dated before the cutoff, including those belonging to
retained creators, contradicting the claim that retained creators' snapshots
are untouched. -/
theorem clean_old_data_deletes_retained_creator_snapshots :
    (∃ c, c ∈ (clean_old_data c5Db 5).1.creators ∧ c.user_id = "A") ∧
    (∃ r, r ∈ c5Db.stats ∧ r.user_id = "A" ∧ r.recorded_date = 4) ∧
    (∀ r, r ∈ (clean_old_data c5Db 5).1.stats → ¬(r.user_id = "A" ∧ r.recorded_date = 4)) := by
  refine ⟨⟨c5CreatorA, by decide, rfl⟩, ⟨c5Stat "A" 4, by decide, rfl, rfl⟩, by decide⟩

/-- Claim C5 (amended): given a cutoff date, the script first deletes every
snapshot dated strictly before the cutoff — including snapshots of creators
that are retained — then deletes every creator left with no snapshot at or
after the cutoff (so an evicted creator loses all its snapshots, and
snapshots are deleted before creators); a creator with a snapshot exactly at
the cutoff is retained (inclusive boundary); the reported count is the
number of creators removed. -/
theorem clean_old_data_spec (db : DB) (cutoff : ℤ) :
    (∀ r : StatsData, r ∈ (clean_old_data db cutoff).1.stats ↔
        (r ∈ db.stats ∧ cutoff ≤ r.recorded_date)) ∧
    (∀ c : CreatorRow, c ∈ (clean_old_data db cutoff).1.creators ↔
        (c ∈ db.creators ∧ ∃ r : StatsData, r ∈ db.stats ∧ r.user_id = c.user_id ∧
          cutoff ≤ r.recorded_date)) ∧
    (clean_old_data db cutoff).2.2.2 =
      db.creators.length - (clean_old_data db cutoff).1.creators.length := by
  refine ⟨?_, ?_, rfl⟩
  · intro r
    simp [clean_old_data, List.mem_filter, not_lt]
  · intro c
    simp only [clean_old_data, List.mem_filter, List.any_eq_true, beq_iff_eq]
    constructor
    · rintro ⟨hc, r, hr, hid⟩
      exact ⟨hc, r, hr.1, hid, by simpa [not_lt] using hr.2⟩
    · rintro ⟨hc, r, hr, hid, hd⟩
      exact ⟨hc, r, ⟨hr, by simpa [not_lt] using hd⟩, hid⟩

/-- Claim C5 witness: creator A with a snapshot exactly at the cutoff (day 5)
is retained; creator B, whose only snapshot is on day 2, is evicted; one
creator is reported removed. -/
theorem clean_old_data_spec_witness :
    c5CreatorA ∈ (clean_old_data c5WDb 5).1.creators ∧
    (c5CreatorB ∈ (clean_old_data c5WDb 5).1.creators → False) ∧
    (clean_old_data c5WDb 5).2.2.2 = 1 := by
  have h := clean_old_data_spec c5WDb 5
  refine ⟨(h.2.1 c5CreatorA).mpr ⟨by decide, c5Stat "A" 5, by decide, rfl, by decide⟩, ?_, ?_⟩
  · intro hb
    obtain ⟨-, r, hr, hid, hd⟩ := (h.2.1 c5CreatorB).mp hb
    have : r = c5Stat "A" 5 ∨ r = c5Stat "B" 2 := by
      simpa [c5WDb] using hr
    rcases this with rfl | rfl
    · exact absurd hid (by decide)
    · exact absurd hd (by decide)
  · rw [h.2.2]
    decide

/-- The day-averaged growth computation is extensionally division by
`max (today - previous_date) 1`: the zero-gap patch and the non-positive
guard together behave exactly like clamping the divisor at one day. -/
theorem avgDailyGrowth_eq_max (delta previous_date today : ℤ) :
    avgDailyGrowth delta previous_date today =
      (delta : ℚ) / ((max (today - previous_date) 1 : ℤ) : ℚ) := by
  have hz : avgDailyGrowth delta previous_date today =
      (if 0 < (if today - previous_date = 0 then 1 else today - previous_date) then
        (delta : ℚ) / (((if today - previous_date = 0 then 1 else today - previous_date) : ℤ) : ℚ)
      else (delta : ℚ)) := rfl
  rcases eq_or_ne (today - previous_date) 0 with heq | hne
  · rw [hz, heq]
    norm_num
  · rw [hz, if_neg hne]
    rcases lt_or_gt_of_ne hne with hlt | hgt
    · rw [if_neg (by omega : ¬ ((0:ℤ) < today - previous_date)),
        max_eq_right (by omega : today - previous_date ≤ 1)]
      norm_num
    · rw [if_pos hgt, max_eq_left (by omega : (1:ℤ) ≤ today - previous_date)]

/-- Claim C6: the divisor used for day-averaged growth equals
`max(today - previous_snapshot_date, 1)` — a same-day gap and a negative
(clock-skew) gap are both treated as a one-day gap. -/
theorem avgDailyGrowth_divisor_clamped (delta previous_date today : ℤ) :
    avgDailyGrowth delta previous_date today =
      (delta : ℚ) / ((max (today - previous_date) 1 : ℤ) : ℚ) :=
  avgDailyGrowth_eq_max delta previous_date today

/-- Claim C6 witness: a same-day gap (divisor clamps 0 to 1) and a negative
two-day clock skew (divisor clamps -2 to 1) both leave the raw delta
undivided, and an honest 3-day gap divides by 3. -/
theorem avgDailyGrowth_divisor_clamped_witness :
    avgDailyGrowth 100 7 7 = 100 ∧ avgDailyGrowth 100 9 7 = 100 ∧
    avgDailyGrowth 300 7 10 = 100 := by
  refine ⟨?_, ?_, ?_⟩
  · rw [avgDailyGrowth_divisor_clamped]
    norm_num [max_def]
  · rw [avgDailyGrowth_divisor_clamped]
    norm_num [max_def]
  · rw [avgDailyGrowth_divisor_clamped]
    norm_num [max_def]

theorem extract_stats_data_some (today : ℤ) (uid : String) (a : Author) (db : DB)
    (tr : Option String) (prev : StatsData)
    (h : get_previous_stats db uid today = some prev) :
    extract_stats_data today uid a db tr =
      { user_id := uid, recorded_date := today, follower_count := currentFollowerCount a,
        heart_count := currentHeartCount a, video_count := currentVideoCount a,
        daily_growth_followers := pyIntTrunc (avgDailyGrowth (currentFollowerCount a - prev.follower_count) prev.recorded_date today),
        daily_growth_percent := if 0 < prev.follower_count then quantize2 (avgDailyGrowth (currentFollowerCount a - prev.follower_count) prev.recorded_date today / (prev.follower_count : ℚ) * 100) else 0,
        source_trend := tr } := by
  unfold extract_stats_data
  rw [h]

theorem extract_stats_data_none (today : ℤ) (uid : String) (a : Author) (db : DB)
    (tr : Option String) (h : get_previous_stats db uid today = none) :
    extract_stats_data today uid a db tr =
      { user_id := uid, recorded_date := today, follower_count := currentFollowerCount a,
        heart_count := currentHeartCount a, video_count := currentVideoCount a,
        daily_growth_followers := 0, daily_growth_percent := 0, source_trend := tr } := by
  unfold extract_stats_data
  rw [h]

/-- Claim C2: with a most recent prior snapshot strictly before today, the
stored integer growth is the truncation of
(current followers - previous followers) / (day gap), and the growth percent
is that daily rate divided by the previous follower count, times 100,
rounded to two decimal places; with no prior snapshot both growth fields are
zero. -/
theorem extract_stats_growth_arithmetic :
    (∀ (today : ℤ) (uid : String) (a : Author) (db : DB) (tr : Option String) (prev : StatsData),
      get_previous_stats db uid today = some prev →
      prev.recorded_date < today →
      0 < prev.follower_count →
      (extract_stats_data today uid a db tr).daily_growth_followers =
        pyIntTrunc (((currentFollowerCount a - prev.follower_count : ℤ) : ℚ) / ((today - prev.recorded_date : ℤ) : ℚ)) ∧
      (extract_stats_data today uid a db tr).daily_growth_percent =
        quantize2 ((((currentFollowerCount a - prev.follower_count : ℤ) : ℚ) / ((today - prev.recorded_date : ℤ) : ℚ)) / (prev.follower_count : ℚ) * 100)) ∧
    (∀ (today : ℤ) (uid : String) (a : Author) (db : DB) (tr : Option String),
      get_previous_stats db uid today = none →
      (extract_stats_data today uid a db tr).daily_growth_followers = 0 ∧
      (extract_stats_data today uid a db tr).daily_growth_percent = 0) := by
  constructor
  · intro today uid a db tr prev h hd hp
    have havg : avgDailyGrowth (currentFollowerCount a - prev.follower_count)
        prev.recorded_date today =
        ((currentFollowerCount a - prev.follower_count : ℤ) : ℚ) / ((today - prev.recorded_date : ℤ) : ℚ) := by
      rw [avgDailyGrowth_eq_max, max_eq_left (by omega)]
    rw [extract_stats_data_some today uid a db tr prev h, havg, if_pos hp]
    exact ⟨rfl, rfl⟩
  · intro today uid a db tr h
    rw [extract_stats_data_none today uid a db tr h]
    exact ⟨rfl, rfl⟩

/-- Claim C2 witness: previous snapshot (1000 followers, day 7), current 1300
followers on day 10 — a 3-day gap — yields integer growth 100 and growth
percent 10.00; and on an empty history both growth fields are zero. -/
theorem extract_stats_growth_arithmetic_witness :
    (extract_stats_data 10 "u" c2Author c2Db none).daily_growth_followers = 100 ∧
    (extract_stats_data 10 "u" c2Author c2Db none).daily_growth_percent = 10 ∧
    (extract_stats_data 10 "u" c2Author { c2Db with stats := [] } none).daily_growth_followers = 0 := by
  obtain ⟨h1, h2⟩ := extract_stats_growth_arithmetic.1 10 "u" c2Author c2Db none c2Prev rfl
    (by decide) (by decide)
  have hcf : currentFollowerCount c2Author = 1300 := by decide
  have hq : ((currentFollowerCount c2Author - c2Prev.follower_count : ℤ) : ℚ) /
      ((10 - c2Prev.recorded_date : ℤ) : ℚ) = 100 := by
    rw [hcf]
    norm_num [c2Prev]
  refine ⟨?_, ?_, ?_⟩
  · rw [h1, hq]
    norm_num [pyIntTrunc]
  · rw [h2, hq]
    norm_num [c2Prev, quantize2, roundHalfEven]
  · exact (extract_stats_growth_arithmetic.2 10 "u" c2Author { c2Db with stats := [] } none rfl).1

theorem safeCount_zeroish (v : PyVal) (h : zeroishVal v) : safeCount v = 0 := by
  rcases h with rfl | rfl | ⟨s, rfl, hs⟩
  · rfl
  · rfl
  · rcases eq_or_ne s "" with rfl | hne
    · rfl
    · simp [safeCount, truthy, pyToInt, hne, hs]

theorem zeroish_pyOr (a b : PyVal) (ha : zeroishVal a) (hb : zeroishVal b) :
    zeroishVal (pyOr a b) := by
  unfold pyOr
  split
  · exact ha
  · exact hb

theorem safeCount_chain_zero (z : PyVal) (h : zeroishVal z) :
    safeCount (pyOr z (.vint 0)) = 0 := by
  unfold pyOr
  split
  · exact safeCount_zeroish z h
  · rfl

/-- Claim C9: the growth computation is a total function — missing, empty or
non-numeric counter fields are coerced to zero instead of raising — and a
previous snapshot with zero followers yields growth percent exactly 0 with
no division error. -/
theorem extract_stats_defaults_and_zero_guard :
    (∀ (today : ℤ) (uid : String) (a : Author) (db : DB) (tr : Option String),
      zeroishVal a.follower_count → zeroishVal a.mplatform_followers_count →
      zeroishVal a.total_favorited → zeroishVal a.favoriting_count →
      zeroishVal a.heart_count → zeroishVal a.digg_count → zeroishVal a.favorited_count →
      zeroishVal a.aweme_count → zeroishVal a.video_count →
      (extract_stats_data today uid a db tr).follower_count = 0 ∧
      (extract_stats_data today uid a db tr).heart_count = 0 ∧
      (extract_stats_data today uid a db tr).video_count = 0) ∧
    (∀ (today : ℤ) (uid : String) (a : Author) (db : DB) (tr : Option String) (prev : StatsData),
      get_previous_stats db uid today = some prev →
      prev.follower_count = 0 →
      (extract_stats_data today uid a db tr).daily_growth_percent = 0) := by
  constructor
  · intro today uid a db tr z1 z2 z3 z4 z5 z6 z7 z8 z9
    have hf : currentFollowerCount a = 0 :=
      safeCount_chain_zero _ (zeroish_pyOr _ _ z1 z2)
    have hh : currentHeartCount a = 0 :=
      safeCount_chain_zero _ (zeroish_pyOr _ _ (zeroish_pyOr _ _ (zeroish_pyOr _ _ (zeroish_pyOr _ _ z3 z4) z5) z6) z7)
    have hv : currentVideoCount a = 0 :=
      safeCount_chain_zero _ (zeroish_pyOr _ _ z8 z9)
    rcases hprev : get_previous_stats db uid today with _ | prev
    · rw [extract_stats_data_none today uid a db tr hprev]
      exact ⟨hf, hh, hv⟩
    · rw [extract_stats_data_some today uid a db tr prev hprev]
      exact ⟨hf, hh, hv⟩
  · intro today uid a db tr prev h hp0
    rw [extract_stats_data_some today uid a db tr prev h]
    simp [hp0]

/-- Claim C9 witness: an author whose nine counter fields are all missing,
empty or non-numeric strings produces the zero counts, and a previous
snapshot with zero followers produces growth percent 0. -/
theorem extract_stats_defaults_and_zero_guard_witness :
    (extract_stats_data 10 "u" c9Author c9Db none).follower_count = 0 ∧
    (extract_stats_data 10 "u" c9Author c9Db none).heart_count = 0 ∧
    (extract_stats_data 10 "u" c9Author c9Db none).video_count = 0 ∧
    (extract_stats_data 10 "u" c9Author c9Db none).daily_growth_percent = 0 := by
  obtain ⟨h1, h2, h3⟩ := extract_stats_defaults_and_zero_guard.1 10 "u" c9Author c9Db none
    (Or.inr (Or.inr ⟨"abc", rfl, by decide⟩)) (Or.inl rfl)
    (Or.inr (Or.inl rfl)) (Or.inr (Or.inr ⟨"12x", rfl, by decide⟩))
    (Or.inl rfl) (Or.inr (Or.inr ⟨"n/a", rfl, by decide⟩)) (Or.inl rfl)
    (Or.inr (Or.inr ⟨"??", rfl, by decide⟩)) (Or.inl rfl)
  exact ⟨h1, h2, h3,
    extract_stats_defaults_and_zero_guard.2 10 "u" c9Author c9Db none c9Prev rfl rfl⟩

/-- Claim C7: the relevance classifier never propagates a provider failure —
a raised provider call, a response that fails to parse as JSON, or a parse
that is not a list all return the entire input unfiltered, and an empty
input returns an empty list. -/
theorem filter_trends_with_ai_fallback :
    (∀ (env : AiEnv) (l : List String), filter_trends_with_ai env l (Except.error ()) = l) ∧
    (∀ (env : AiEnv) (l : List String) (content : String),
      env.parseJson (stripMd content) = none →
      filter_trends_with_ai env l (Except.ok content) = l) ∧
    (∀ (env : AiEnv) (l : List String) (content : String),
      env.parseJson (stripMd content) = some JsonVal.other →
      filter_trends_with_ai env l (Except.ok content) = l) ∧
    (∀ (env : AiEnv) (call : Except Unit String), filter_trends_with_ai env [] call = []) := by
  refine ⟨?_, ?_, ?_, ?_⟩
  · intro env l
    cases l with
    | nil => rfl
    | cons x xs => rfl
  · intro env l content h
    cases l with
    | nil => rfl
    | cons x xs => simp [filter_trends_with_ai, h]
  · intro env l content h
    cases l with
    | nil => rfl
    | cons x xs => simp [filter_trends_with_ai, h]
  · intro env call
    rfl

/-- Claim C7 witness: a parser that always fails leaves a two-element list
unfiltered whether the call raised or returned garbage, and the empty list
maps to the empty list. -/
theorem filter_trends_with_ai_fallback_witness :
    filter_trends_with_ai c7Env ["a", "b"] (Except.ok "not json") = ["a", "b"] ∧
    filter_trends_with_ai c7Env ["a", "b"] (Except.error ()) = ["a", "b"] ∧
    filter_trends_with_ai c7Env [] (Except.ok "[]") = [] := by
  have h := filter_trends_with_ai_fallback
  exact ⟨h.2.1 c7Env ["a", "b"] "not json" rfl, h.1 c7Env ["a", "b"],
    h.2.2.2 c7Env (Except.ok "[]")⟩

/-- Claim C8: the context filter evaluates its layers in order with short
circuit — an account whose lower-cased name/handle/bio concatenation
contains a platform keyword is rejected with a Layer-1 reason naming the
first matching keyword, with a result that does not depend on the caption
(Layer 2 is never evaluated); otherwise a caption that after trimming and
lower-casing starts with a repost pronoun followed by a space is rejected
with a Layer-2 reason; otherwise (including empty captions) the account
passes, Layer 3 being a no-op under the disabled face-detection config. -/
theorem filter_creator_layer_order :
    (∀ (face : String → Bool × String) (a : Author) (cap cov kw : String),
      PLATFORM_KEYWORDS.find? (fun k => strContains (combinedText a) k) = some kw →
      filter_creator face a cap cov = (false, "❌ Layer 1: " ++ layer1Reason kw)) ∧
    (∀ (face : String → Bool × String) (a : Author) (cap cov p : String),
      PLATFORM_KEYWORDS.find? (fun k => strContains (combinedText a) k) = none →
      REPOST_PRONOUNS.find? (fun q => strStartsWith (lowerStr (trimStr cap)) (q ++ " ")) = some p →
      filter_creator face a cap cov = (false, "❌ Layer 2: " ++ layer2Reason p)) ∧
    (∀ (face : String → Bool × String) (a : Author) (cap cov : String),
      PLATFORM_KEYWORDS.find? (fun k => strContains (combinedText a) k) = none →
      REPOST_PRONOUNS.find? (fun q => strStartsWith (lowerStr (trimStr cap)) (q ++ " ")) = none →
      filter_creator face a cap cov = (true, "✅ All filters passed")) := by
  refine ⟨?_, ?_, ?_⟩
  · intro face a cap cov kw h1
    unfold filter_creator layer1_platform_check
    rw [h1]
  · intro face a cap cov p h1 h2
    by_cases hcap : cap = ""
    · subst hcap
      rw [show REPOST_PRONOUNS.find?
          (fun q => strStartsWith (lowerStr (trimStr "")) (q ++ " ")) = none from rfl] at h2
      cases h2
    · unfold filter_creator layer1_platform_check layer2_pronoun_check
      rw [h1, if_neg hcap, h2]
  · intro face a cap cov h1 h2
    unfold filter_creator layer1_platform_check layer2_pronoun_check layer3_face_presence
    rw [h1]
    by_cases hcap : cap = ""
    · subst hcap
      rfl
    · rw [if_neg hcap, h2]
      rfl

/-- Claim C8 witness: the account with "my twitch is..." in its bio is
rejected at Layer 1 naming keyword twitch, with any caption and with the
empty caption alike; a clean account with caption "He really thought this
was cool" is rejected at Layer 2 naming pronoun he; captions "This is my
take" and the empty caption pass all layers. -/
theorem filter_creator_layer_order_witness :
    filter_creator c8Face c8TwitchAuthor "Anything at all" "cov" =
      (false, "❌ Layer 1: " ++ layer1Reason "twitch") ∧
    filter_creator c8Face c8TwitchAuthor "" "cov" =
      (false, "❌ Layer 1: " ++ layer1Reason "twitch") ∧
    filter_creator c8Face c8CleanAuthor "He really thought this was cool" "cov" =
      (false, "❌ Layer 2: " ++ layer2Reason "he") ∧
    filter_creator c8Face c8CleanAuthor "This is my take" "cov" =
      (true, "✅ All filters passed") ∧
    filter_creator c8Face c8CleanAuthor "" "cov" = (true, "✅ All filters passed") := by
  have h := filter_creator_layer_order
  exact ⟨h.1 c8Face c8TwitchAuthor "Anything at all" "cov" "twitch" rfl,
    h.1 c8Face c8TwitchAuthor "" "cov" "twitch" rfl,
    h.2.1 c8Face c8CleanAuthor "He really thought this was cool" "cov" "he" rfl rfl,
    h.2.2 c8Face c8CleanAuthor "This is my take" "cov" rfl rfl,
    h.2.2 c8Face c8CleanAuthor "" "cov" rfl rfl⟩

/-- Claim C10: a video item carrying an author and statistics but yielding no
cover URL (neither cover nor dynamic cover provides one) is rejected before
any filter layer runs — the result is False with only the total-processed
and Layer-3-rejection counters bumped, for every environment and every
author content — even though Layer 3 itself always passes whenever it is
given a URL, face detection being disabled in the configuration. -/
theorem process_video_item_no_cover_rejected :
    (∀ (env : Env) (tr : Option String) (item : Item) (st : PState) (ai : AwemeInfo)
        (a : Author) (s : Statistics),
      item.aweme_info = some ai → ai.author = some a → ai.statistics = some s →
      coverUrlOf ai = "" →
      processVideoItem env tr item st =
        (false, { st with counters := { st.counters with total_processed := st.counters.total_processed + 1, rejected_layer3 := st.counters.rejected_layer3 + 1 } })) ∧
    (∀ (face : String → Bool × String) (url : String),
      layer3_face_presence face url = (true, "Face detection disabled in config")) := by
  constructor
  · intro env tr item st ai a s h1 h2 h3 h4
    unfold processVideoItem preSavepoint
    simp only [h1, h2, h3, h4]
    rfl
  · intro face url
    rfl

/-- Claim C10 witness: a concrete item with an author and statistics but no
video object is rejected with the Layer-3 counter bumped, and Layer 3 passes
on a concrete URL under the disabled-face-detection config. -/
theorem process_video_item_no_cover_rejected_witness :
    processVideoItem c10Env none c10Item {} =
      (false, { counters := { total_processed := 1, rejected_layer3 := 1 } }) ∧
    layer3_face_presence c10Face "http://img" = (true, "Face detection disabled in config") := by
  have h := process_video_item_no_cover_rejected
  exact ⟨h.1 c10Env none c10Item {} c10Ai c10Author { play_count := .vint 70000 }
    rfl rfl rfl rfl, h.2 c10Face "http://img"⟩

/-- Claim C3: when the persistence of a single item raises a database error,
exactly that item's writes are rolled back to the savepoint taken before the
item's first write — the database and the run-scoped discovered set are
unchanged — the item reports False, and the enclosing trend loop continues
with the remaining items against the untouched database. -/
theorem process_video_item_savepoint_rollback
    (env : Env) (tr : Option String) (item : Item) (st : PState)
    (pay : Payload) (c : FilterStats)
    (hpre : preSavepoint env.now env.face item st.counters st.discovered = (some pay, c))
    (hfail : persistItem env tr pay st.db = Except.error ()) :
    processVideoItem env tr item st = (false, { st with counters := c }) ∧
    ({ st with counters := c } : PState).db = st.db ∧
    ({ st with counters := c } : PState).discovered = st.discovered ∧
    (∀ (rest : List Item) (n : ℕ),
      processItems env tr (item :: rest) st n =
        processItems env tr rest ({ st with counters := c }) n) := by
  have hp : processVideoItem env tr item st = (false, { st with counters := c }) := by
    unfold processVideoItem
    simp only [hpre, hfail]
  refine ⟨hp, rfl, rfl, ?_⟩
  intro rest n
  simp only [processItems]
  rw [hp]

/-- Claim C3 witness: a concrete comet-eligible item against an environment
whose creator write always raises — the item reports False and the database
and discovered set stay empty. -/
theorem process_video_item_savepoint_rollback_witness :
    processVideoItem c3Env (some "trendX") c3Item {} = (false, { counters := c3Cnt }) ∧
    (processVideoItem c3Env (some "trendX") c3Item {}).2.db = ({} : PState).db ∧
    processItems c3Env (some "trendX") [c3Item] {} 0 = (0, { counters := c3Cnt }) := by
  have h := process_video_item_savepoint_rollback c3Env (some "trendX") c3Item {} c3Pay c3Cnt
    rfl rfl
  refine ⟨h.1, ?_, ?_⟩
  · rw [h.1]
  · rw [h.2.2.2 [] 0]
    rfl

end RankedIO
